import Mathlib

/-!
# Verification of the `build-samples.sh` build-validation harness

Shallow embedding of `src/build-samples.sh` (the repository's build harness):
discovery of sample directories, the per-unit install/build strategy chain,
the result-tracking loop (including the `set -e` errexit semantics of bash),
and the reporter / final exit code.

Modelling notes on bash semantics that the embedding reproduces faithfully:

* `set -e` (line 6) makes the script exit as soon as a top-level command
  returns a non-zero status; commands inside an `if` condition or a `&&`
  list are exempt.
* `((successful++))` / `((failed++))` are arithmetic commands: bash gives
  them exit status 1 when the arithmetic expression evaluates to 0.  A
  post-increment evaluates to the *old* value of the variable, so
  incrementing a counter that is currently 0 returns status 1; under
  `set -e` this terminates the script (the variable is still incremented
  before the shell exits).  These commands appear at top level inside the
  loop body (not inside a condition), so errexit applies to them.
* `find samples -name "package.json" -not -path "*/node_modules/*" -type f`
  prints, in depth-first traversal order, the path of every regular file
  named `package.json` whose path does not contain `/node_modules/`
  as a substring; since directory-entry names contain no slash and the
  traversal root is the single segment `samples`, that substring condition
  holds exactly when `node_modules` occurs as a path segment at index ≥ 1
  of the file's path, i.e. anywhere in the containing directory's segment
  list except its head.
-/

namespace BuildSamples

/-- Terminal status recorded for one sample in the `results` associative
array: the script stores exactly the strings `"success"` and `"failed"`. -/
inductive Status where
  | success
  | failed
deriving DecidableEq, Repr

/-- The environment one sample presents to the harness: its directory path
and the outcome of each external probe/tool the script may invoke there.
`installOk`: would `npm ci` in the sample directory succeed;
`hasBuildScript`: does `npm run | grep -q "build"` find a build script;
`buildOk`: would `npm run build` succeed;
`hasTsconfig`: does `tsconfig.json` exist (`[ -f "tsconfig.json" ]`);
`tscOk`: would `npx tsc --noEmit` succeed;
`hasTsFiles`: does `find . -name "*.ts" -not -path "./node_modules/*"`
produce at least one file;
`lenientOk`: would `npx tsc --noEmit --skipLibCheck <files>` succeed. -/
structure SampleEnv where
  path : String
  installOk : Bool
  hasBuildScript : Bool
  buildOk : Bool
  hasTsconfig : Bool
  tscOk : Bool
  hasTsFiles : Bool
  lenientOk : Bool
deriving DecidableEq, Repr

/-- The externally visible commands/steps the per-unit build block can run
(used to record which steps were actually attempted for a unit). -/
inductive Cmd where
  /-- `npm ci` inside the unit directory (line 43). -/
  | npmCi
  /-- `npm run build` (line 46). -/
  | npmRunBuild
  /-- `npx tsc --noEmit` against `tsconfig.json` (line 49). -/
  | tscStrict
  /-- `npx tsc --noEmit --skipLibCheck <ts files>` (line 53). -/
  | tscLenient
  /-- the `"ℹ️ No TypeScript files found"` informational message (line 55). -/
  | noTsMessage
deriving DecidableEq, Repr

/-- The four build/check strategies of the fallback chain, in the spec's
terminology. -/
inductive Strat where
  | buildScript
  | typeCheck
  | syntaxScan
  | noop
deriving DecidableEq, Repr

/-- The `if npm run | grep -q "build" … elif … elif … else … fi` chain in
the condition of the build `if` (lines 44–57): returns whether the chain
succeeded together with the list of commands/steps it ran. -/
def chainRun (u : SampleEnv) : Bool × List Cmd :=
  if u.hasBuildScript then (u.buildOk, [Cmd.npmRunBuild])
  else if u.hasTsconfig then (u.tscOk, [Cmd.tscStrict])
  else if u.hasTsFiles then (u.lenientOk, [Cmd.tscLenient])
  else (true, [Cmd.noTsMessage])

/-- Short-circuiting `&&` of bash, recording the commands run: the right
operand is only executed when the left one succeeded. -/
def seqAnd (a : Bool × List Cmd) (b : Unit → Bool × List Cmd) : Bool × List Cmd :=
  if a.1 then ((b ()).1, a.2 ++ (b ()).2) else a

/-- The whole per-unit build block `npm ci && { …chain… }` (lines 43–57):
overall success flag plus the steps that were attempted. -/
def runUnit (u : SampleEnv) : Bool × List Cmd :=
  seqAnd (u.installOk, [Cmd.npmCi]) fun _ => chainRun u

/-- The status the script records for a unit in `results` (lines 58–66):
`success` when the build `if` condition succeeded, `failed` otherwise. -/
def unitStatus (u : SampleEnv) : Status :=
  if (runUnit u).1 then Status.success else Status.failed

/-- Spec-side: the four strategies in the spec's priority order. -/
def stratPriority : List Strat :=
  [Strat.buildScript, Strat.typeCheck, Strat.syntaxScan, Strat.noop]

/-- Spec-side: the applicability predicate of each strategy ("first match
wins" is decided over these predicates in `stratPriority` order). -/
def applicable (u : SampleEnv) : Strat → Bool
  | Strat.buildScript => u.hasBuildScript
  | Strat.typeCheck => u.hasTsconfig
  | Strat.syntaxScan => u.hasTsFiles
  | Strat.noop => true

/-- Spec-side: the action of one strategy on a unit (result flag and the
step it runs). -/
def stratRun (u : SampleEnv) : Strat → Bool × List Cmd
  | Strat.buildScript => (u.buildOk, [Cmd.npmRunBuild])
  | Strat.typeCheck => (u.tscOk, [Cmd.tscStrict])
  | Strat.syntaxScan => (u.lenientOk, [Cmd.tscLenient])
  | Strat.noop => (true, [Cmd.noTsMessage])

/-- The strategy the `if/elif/elif/else` chain selects for a unit. -/
def selectStrategy (u : SampleEnv) : Strat :=
  if u.hasBuildScript then Strat.buildScript
  else if u.hasTsconfig then Strat.typeCheck
  else if u.hasTsFiles then Strat.syntaxScan
  else Strat.noop

/-- Mutable state accumulated by the build loop (lines 27–30 and 36–70):
the two counters, the `results` associative array (kept here as the list of
assignments in the order they happen; each key is assigned at most once per
run), and the list of samples whose build block was started, in order. -/
structure LoopState where
  successful : Nat
  failed : Nat
  results : List (String × Status)
  attempted : List String
deriving DecidableEq, Repr

/-- The `for sample in "${samples[@]}"` loop (lines 36–70) under `set -e`.
Returns the state at loop exit and `true` when errexit aborted the script
inside the loop.  For each sample the build block runs (its condition is
exempt from errexit), the outcome is recorded in `results`, and then
`((successful++))` or `((failed++))` executes at top level: when the
incremented counter was 0, the arithmetic command's status is 1 and
`set -e` terminates the script (the counter having been incremented). -/
def runLoop : List SampleEnv → LoopState → LoopState × Bool
  | [], st => (st, false)
  | u :: rest, st =>
    let st1 : LoopState := { st with attempted := st.attempted ++ [u.path] }
    if (runUnit u).1 then
      let st2 : LoopState := { st1 with
        results := st1.results ++ [(u.path, Status.success)],
        successful := st1.successful + 1 }
      if st1.successful = 0 then (st2, true) else runLoop rest st2
    else
      let st2 : LoopState := { st1 with
        results := st1.results ++ [(u.path, Status.failed)],
        failed := st1.failed + 1 }
      if st1.failed = 0 then (st2, true) else runLoop rest st2

/-- Observable result of one whole run of the script.
`exitCode`: the process exit status;
`attempted`: the samples whose build block was started, in order;
`results`: the recorded `results` assignments, in order;
`summaryPrinted`: whether the `BUILD SUMMARY` block (lines 73–89) was
printed; `noSamplesMsg`: whether the `"❌ No samples found!"` message
(line 14) was printed. -/
structure RunResult where
  exitCode : Nat
  attempted : List String
  results : List (String × Status)
  summaryPrinted : Bool
  noSamplesMsg : Bool
deriving DecidableEq, Repr

/-- One run of `build-samples.sh`, given the discovered sample list and the
exit status of the root-level `npm ci` (line 24).  The empty-discovery
check (lines 13–16) runs first and exits 1; then the root install runs at
top level, so under `set -e` a non-zero status aborts the run with that
status; then the build loop runs; if the loop aborts via errexit the script
exits 1 with no summary; otherwise the summary prints and the final exit
code is 1 when `failed > 0`, else 0 (lines 92–98). -/
def runScript (rootInstallExit : Nat) (samples : List SampleEnv) : RunResult :=
  if samples.isEmpty then
    { exitCode := 1, attempted := [], results := [],
      summaryPrinted := false, noSamplesMsg := true }
  else if rootInstallExit ≠ 0 then
    { exitCode := rootInstallExit, attempted := [], results := [],
      summaryPrinted := false, noSamplesMsg := false }
  else
    let r := runLoop samples ⟨0, 0, [], []⟩
    if r.2 then
      { exitCode := 1, attempted := r.1.attempted, results := r.1.results,
        summaryPrinted := false, noSamplesMsg := false }
    else
      { exitCode := if r.1.failed > 0 then 1 else 0,
        attempted := r.1.attempted, results := r.1.results,
        summaryPrinted := true, noSamplesMsg := false }

/-- Lookup in the `results` associative array. -/
def lookupStatus (results : List (String × Status)) (s : String) : Option Status :=
  (results.find? fun p => p.1 = s).map Prod.snd

/-- The reporter's detailed-results loop (lines 82–89): one line per sample,
iterating over `"${samples[@]}"` (discovery order); the marker is `✅`
exactly when the recorded status string equals `"success"` (anything else,
including a missing entry, prints `❌`). -/
def reportLines (samples : List String) (results : List (String × Status)) :
    List (String × Bool) :=
  samples.map fun s => (s, decide (lookupStatus results s = some Status.success))

/-! ## Discovery (line 11)

A directory is modelled as its ordered list of entries (the order `find`
visits them); an entry is a regular file or a subdirectory.  Paths are
lists of segments (entry names, which contain no `/` on a real
filesystem); the traversal root is the single segment `samples`. -/

/-- One directory entry: a regular file, or a subdirectory with its own
ordered entry list. -/
inductive Entry where
  | file : String → Entry
  | dir : String → List Entry → Entry

/-- The `-not -path "*/node_modules/*"` test of line 11, expressed on the
segment list of the *containing directory* of a candidate `package.json`
file: the file's path string contains `/node_modules/` exactly when
`node_modules` occurs in the directory's segments at index ≥ 1. -/
def underNodeModules (dirSegs : List String) : Bool :=
  (dirSegs.drop 1).contains "node_modules"

/-- `find <p-dir> -name "package.json" -not -path "*/node_modules/*" -type f`
followed by `sed 's|/package.json||'` (line 11): depth-first traversal in
entry order, emitting the containing directory's path for every regular
file named `package.json` that passes the path test. -/
def findManifestDirs (p : List String) : List Entry → List (List String)
  | [] => []
  | Entry.file n :: rest =>
    (if n = "package.json" ∧ ¬ underNodeModules p = true then [p] else []) ++
      findManifestDirs p rest
  | Entry.dir n es :: rest =>
    findManifestDirs (p ++ [n]) es ++ findManifestDirs p rest

/-- Spec-side formulation of discovery, before the dependency-cache
exclusion: every directory path (possibly nested, the root included) whose
entry list contains a regular file named `package.json`. -/
def manifestDirs (p : List String) : List Entry → List (List String)
  | [] => []
  | Entry.file n :: rest =>
    (if n = "package.json" then [p] else []) ++ manifestDirs p rest
  | Entry.dir n es :: rest =>
    manifestDirs (p ++ [n]) es ++ manifestDirs p rest

/-! ## Helper lemmas -/

/-- The filtered traversal emits exactly the manifest directories that are
not under a dependency-cache segment, at any traversal prefix `p`. -/
theorem mem_findManifestDirs (p : List String) (es : List Entry) (q : List String) :
    q ∈ findManifestDirs p es ↔
      q ∈ manifestDirs p es ∧ underNodeModules q = false := by
  induction p, es using findManifestDirs.induct with
  | case1 p => simp [findManifestDirs, manifestDirs]
  | case2 p n rest ih =>
    simp only [findManifestDirs, manifestDirs, List.mem_append, List.mem_singleton, ih]
    split_ifs with h1 h2 h2 <;> aesop
  | case3 p n es' rest ih1 ih2 =>
    simp only [findManifestDirs, manifestDirs, List.mem_append, ih1, ih2]
    tauto

/-- On a non-empty sample list the build loop always aborts the script:
whichever branch the first unit takes, the corresponding counter is still
0, so the post-increment arithmetic command returns status 1 and `set -e`
terminates the run. -/
theorem runLoop_aborts_on_first (u : SampleEnv) (rest : List SampleEnv) :
    (runLoop (u :: rest) ⟨0, 0, [], []⟩).2 = true := by
  by_cases h : (runUnit u).1 = true <;> simp [runLoop, h]

/-! ## Claim theorems -/

/-- Claim C1: the claim is refuted by the code.  In a run with two units
where unit `k`'s install fails, the failure *is* caught at the unit
boundary and recorded as Failure for `k` (the build block is the condition
of an `if`, exempt from errexit), but the subsequent unit `j` is never
attempted: `((failed++))` increments the counter from 0, the arithmetic
command returns status 1, and `set -e` terminates the script with exit
code 1 before the loop reaches `j`. -/
theorem c1_failure_recorded_but_rest_not_attempted :
    runScript 0
        [⟨"samples/k", false, false, false, false, false, false, false⟩,
         ⟨"samples/j", true, false, false, false, false, false, false⟩] =
      { exitCode := 1, attempted := ["samples/k"],
        results := [("samples/k", Status.failed)],
        summaryPrinted := false, noSamplesMsg := false } := by
  rfl

/-- Claim C2: the claim is refuted by the code because no run can ever
reach the Reporter: for every root-install status and every discovered
sample list the `BUILD SUMMARY` block is never printed.  With zero samples
the script exits 1 beforehand; with at least one sample the first unit's
counter post-increment (from 0) returns status 1 and `set -e` kills the
script inside the loop. -/
theorem c2_reporter_never_reached (rootInstallExit : Nat) (samples : List SampleEnv) :
    (runScript rootInstallExit samples).summaryPrinted = false := by
  cases samples with
  | nil => simp [runScript]
  | cons u rest =>
    by_cases h : rootInstallExit = 0
    · subst h
      simp [runScript, runLoop_aborts_on_first]
    · simp [runScript, h]

/-- Claim C3: the claim is refuted by the code.  A run with a single unit
whose build succeeds records zero failures, yet the script exits with code
1 (errexit at `((successful++))`) and the summary is never printed, so the
exit signal is neither decided after all units were attempted nor equal to
0 when `failureCount = 0`. -/
theorem c3_zero_failures_yet_nonzero_exit :
    runScript 0 [⟨"samples/a", true, false, false, false, false, false, false⟩] =
      { exitCode := 1, attempted := ["samples/a"],
        results := [("samples/a", Status.success)],
        summaryPrinted := false, noSamplesMsg := false } := by
  rfl

/-- Claim C4: a unit `u` with both an explicit build script and a
`tsconfig.json` uses the explicit-build-command strategy — the chain runs
`npm run build` and the strict type-check is never invoked for `u` — and,
for any unit `v`, the chain equals "first applicable strategy in priority
order decides the outcome": `List.find?` over the priority list returns
the selected strategy, the chain's result is that strategy's action, and
the recorded status is success iff install and that strategy's action
succeed. -/
theorem c4_strategy_priority (u v : SampleEnv)
    (hb : u.hasBuildScript = true) (_hc : u.hasTsconfig = true) :
    (selectStrategy u = Strat.buildScript ∧
     chainRun u = (u.buildOk, [Cmd.npmRunBuild]) ∧
     Cmd.tscStrict ∉ (runUnit u).2) ∧
    (stratPriority.find? (applicable v) = some (selectStrategy v) ∧
     chainRun v = stratRun v (selectStrategy v) ∧
     unitStatus v =
       (if v.installOk && (stratRun v (selectStrategy v)).1
        then Status.success else Status.failed)) := by
  refine ⟨⟨by simp [selectStrategy, hb], by simp [chainRun, hb], ?_⟩, ?_, ?_, ?_⟩
  · have h2 : (runUnit u).2 = [Cmd.npmCi] ∨
        (runUnit u).2 = [Cmd.npmCi] ++ [Cmd.npmRunBuild] := by
      cases hi : u.installOk <;> simp [runUnit, seqAnd, chainRun, hb, hi]
    rcases h2 with h | h <;> simp [h]
  · cases hbv : v.hasBuildScript <;> cases hcv : v.hasTsconfig <;>
      cases hfv : v.hasTsFiles <;>
      simp [stratPriority, applicable, selectStrategy, hbv, hcv, hfv]
  · cases hbv : v.hasBuildScript <;> cases hcv : v.hasTsconfig <;>
      cases hfv : v.hasTsFiles <;>
      simp [selectStrategy, chainRun, stratRun, hbv, hcv, hfv]
  · cases hbv : v.hasBuildScript <;> cases hcv : v.hasTsconfig <;>
      cases hfv : v.hasTsFiles <;> cases hiv : v.installOk <;>
      simp [unitStatus, runUnit, seqAnd, selectStrategy, chainRun, stratRun,
        hbv, hcv, hfv, hiv]

/-- Witness for C4 at a concrete unit (build script and `tsconfig.json`
both present). -/
theorem c4_strategy_priority_witness :
    (selectStrategy ⟨"samples/u", true, true, true, true, false, false, false⟩ =
       Strat.buildScript ∧
     chainRun ⟨"samples/u", true, true, true, true, false, false, false⟩ =
       ((⟨"samples/u", true, true, true, true, false, false, false⟩ :
         SampleEnv).buildOk, [Cmd.npmRunBuild]) ∧
     Cmd.tscStrict ∉
       (runUnit ⟨"samples/u", true, true, true, true, false, false, false⟩).2) ∧
    (stratPriority.find?
        (applicable ⟨"samples/w", true, false, false, true, true, false, false⟩) =
       some (selectStrategy ⟨"samples/w", true, false, false, true, true, false, false⟩) ∧
     chainRun ⟨"samples/w", true, false, false, true, true, false, false⟩ =
       stratRun ⟨"samples/w", true, false, false, true, true, false, false⟩
         (selectStrategy ⟨"samples/w", true, false, false, true, true, false, false⟩) ∧
     unitStatus ⟨"samples/w", true, false, false, true, true, false, false⟩ =
       (if (⟨"samples/w", true, false, false, true, true, false, false⟩ :
             SampleEnv).installOk &&
           (stratRun ⟨"samples/w", true, false, false, true, true, false, false⟩
             (selectStrategy ⟨"samples/w", true, false, false, true, true, false, false⟩)).1
        then Status.success else Status.failed)) :=
  c4_strategy_priority
    ⟨"samples/u", true, true, true, true, false, false, false⟩
    ⟨"samples/w", true, false, false, true, true, false, false⟩ rfl rfl

/-- Claim C5: if the unit-scoped `npm ci` fails, the short-circuiting `&&`
skips the whole strategy chain — the only step attempted is the install —
and the recorded outcome is Failure. -/
theorem c5_install_failure_skips_strategies (u : SampleEnv)
    (h : u.installOk = false) :
    unitStatus u = Status.failed ∧ (runUnit u).2 = [Cmd.npmCi] := by
  simp [unitStatus, runUnit, seqAnd, h]

/-- Witness for C5 at a concrete unit whose install fails. -/
theorem c5_install_failure_skips_strategies_witness :
    unitStatus ⟨"samples/v", false, true, true, true, true, true, true⟩ =
      Status.failed ∧
    (runUnit ⟨"samples/v", false, true, true, true, true, true, true⟩).2 =
      [Cmd.npmCi] :=
  c5_install_failure_skips_strategies
    ⟨"samples/v", false, true, true, true, true, true, true⟩ rfl

/-- Claim C6, counterexample: a unit with no build script, no
`tsconfig.json` and no TypeScript files, but whose dependency install
fails, has outcome Failure, not the Success the claim asserts for every
such unit. -/
theorem c6_counterexample :
    (⟨"samples/c", false, false, false, false, false, false, false⟩ :
        SampleEnv).hasBuildScript = false ∧
    (⟨"samples/c", false, false, false, false, false, false, false⟩ :
        SampleEnv).hasTsconfig = false ∧
    (⟨"samples/c", false, false, false, false, false, false, false⟩ :
        SampleEnv).hasTsFiles = false ∧
    unitStatus ⟨"samples/c", false, false, false, false, false, false, false⟩ ≠
      Status.success := by
  refine ⟨rfl, rfl, rfl, ?_⟩
  decide

/-- Claim C6 as amended: for a unit whose install succeeded and which has
no build script, no `tsconfig.json` and no TypeScript files, the outcome
is Success and the "No TypeScript files found" note is emitted. -/
theorem c6_no_tooling_is_success (u : SampleEnv)
    (hi : u.installOk = true) (hb : u.hasBuildScript = false)
    (hc : u.hasTsconfig = false) (hf : u.hasTsFiles = false) :
    unitStatus u = Status.success ∧ Cmd.noTsMessage ∈ (runUnit u).2 := by
  simp [unitStatus, runUnit, seqAnd, chainRun, hi, hb, hc, hf]

/-- Witness for the amended C6 at a concrete unit. -/
theorem c6_no_tooling_is_success_witness :
    unitStatus ⟨"samples/n", true, false, false, false, false, false, false⟩ =
      Status.success ∧
    Cmd.noTsMessage ∈
      (runUnit ⟨"samples/n", true, false, false, false, false, false, false⟩).2 :=
  c6_no_tooling_is_success
    ⟨"samples/n", true, false, false, false, false, false, false⟩ rfl rfl rfl rfl

/-- Claim C7: when discovery finds zero units the run exits 1 immediately:
the "No samples found" message is printed, no unit is attempted, nothing
is recorded, and no summary block is printed. -/
theorem c7_zero_units_exit_one (rootInstallExit : Nat)
    (samples : List SampleEnv) (h : samples = []) :
    runScript rootInstallExit samples =
      { exitCode := 1, attempted := [], results := [],
        summaryPrinted := false, noSamplesMsg := true } := by
  subst h
  rfl

/-- Witness for C7: the empty discovery list. -/
theorem c7_zero_units_exit_one_witness :
    runScript 0 [] =
      { exitCode := 1, attempted := [], results := [],
        summaryPrinted := false, noSamplesMsg := true } :=
  c7_zero_units_exit_one 0 [] rfl

/-- Claim C8: a path is emitted by the `find`-based discovery iff it is a
directory (possibly nested, the root included) containing a `package.json`
file and `node_modules` does not occur among the segments below the
traversal root; discovery is a pure function of the entry tree, so its
output (including its order) is the same for an unchanged tree. -/
theorem c8_discovery_exact (es : List Entry) (q : List String) :
    q ∈ findManifestDirs ["samples"] es ↔
      q ∈ manifestDirs ["samples"] es ∧ underNodeModules q = false :=
  mem_findManifestDirs ["samples"] es q

/-- Claim C9: the reporter's detailed-results lines are exactly one line
per discovered sample, in discovery order, whatever the recorded result
set is. -/
theorem c9_report_in_discovery_order (samples : List String)
    (results : List (String × Status)) :
    (reportLines samples results).map Prod.fst = samples := by
  induction samples with
  | nil => rfl
  | cons s rest ih => simp [reportLines] at ih ⊢; exact ih

/-- Claim C10: with a non-empty sample list, a failing root-level `npm ci`
aborts the whole run via `set -e` with the install's (non-zero) exit
status: no unit is attempted, nothing is recorded, and no summary is
printed. -/
theorem c10_root_install_failure_aborts (rootInstallExit : Nat)
    (samples : List SampleEnv) (hne : samples ≠ [])
    (hf : rootInstallExit ≠ 0) :
    runScript rootInstallExit samples =
      { exitCode := rootInstallExit, attempted := [], results := [],
        summaryPrinted := false, noSamplesMsg := false } ∧
    (runScript rootInstallExit samples).exitCode ≠ 0 := by
  have he : samples.isEmpty = false := by
    cases samples with
    | nil => exact absurd rfl hne
    | cons a l => rfl
  refine ⟨by simp [runScript, he, hf], ?_⟩
  simp [runScript, he, hf]

/-- Witness for C10: one sample, root install exiting with status 2. -/
theorem c10_root_install_failure_aborts_witness :
    runScript 2 [⟨"samples/a", true, false, false, false, false, false, false⟩] =
      { exitCode := 2, attempted := [], results := [],
        summaryPrinted := false, noSamplesMsg := false } ∧
    (runScript 2
        [⟨"samples/a", true, false, false, false, false, false, false⟩]).exitCode ≠ 0 :=
  c10_root_install_failure_aborts 2
    [⟨"samples/a", true, false, false, false, false, false, false⟩]
    (by decide) (by decide)

end BuildSamples
